import Mathlib

/-!
Verification of the `spx` RSP client (src/bin/spx.py) against its
natural-language specification.

The development is a shallow embedding: the byte- and string-level logic of
`SPXConnection` is translated into executable Lean definitions, and the spec
claims are stated and settled as theorems about those definitions.

Conventions used throughout:
  * raw bytes are `Nat` values `< 256`; byte strings are `List Nat`;
  * protocol payloads above the framing layer are Lean `String`s
    (the Python code holds them as `str` after an ASCII decode);
  * Python integers are `Int` (so Python floor division `//` is `Int.fdiv`,
    and Python's negative-index slicing is modelled explicitly);
  * Python exceptions become `Except` / `Option` results: the `SpxError`
    inductive mirrors the `RSP*Error` exception classes, with an extra
    `valueError` constructor for `ValueError`/`UnicodeDecodeError` escaping
    from `int(...)`, `binascii`, or `.decode(...)` calls;
  * the background reader and the client thread communicate only through the
    response queue, so the reader is modelled as a pure function from the
    inbound byte stream to the bytes it writes (ACK/NAK) plus the packet it
    produces, and the high-level operations (`put`, `ls`, `_send_packet`) are
    modelled as pure functions from the list of successive device responses
    available on that queue to the list of packets the client sends plus the
    operation outcome.  Each transmission is assumed ACKed in the `put`/`ls`
    models; the ACK/NAK retry logic itself is modelled separately
    (`send_packet_model`).
-/

/-- Character codes of a Lean string, as Python byte values (codepoints; the
strings handled by the protocol layer are ASCII, where this matches bytes). -/
def strCodes (s : String) : List Nat :=
  s.toList.map Char.toNat

/-- Python `str.startswith` on the character level. -/
def strStartsWith (s pre : String) : Bool :=
  pre.toList.isPrefixOf s.toList

/-- Python `s[n:]` (drop the first `n` characters). -/
def strDrop (s : String) (n : Nat) : String :=
  ⟨s.toList.drop n⟩

/-- Python `s.split(",")` (comma code 44), accumulator form. -/
def splitCommaAux : List Char → List Char → List String
  | [], acc => [⟨acc.reverse⟩]
  | c :: rest, acc =>
    if c = Char.ofNat 44 then ⟨acc.reverse⟩ :: splitCommaAux rest []
    else splitCommaAux rest (c :: acc)

/-- Python `s.split(",")`. -/
def splitComma (s : String) : List String :=
  splitCommaAux s.toList []

/-- Python truthiness fallback `m or d` for strings. -/
def pyOr (m d : String) : String :=
  if m = "" then d else m

/-- Python whitespace bytes recognised by `str.strip` / `int` (ASCII part). -/
def isPySpace (c : Nat) : Bool :=
  c = 32 || c = 9 || c = 10 || c = 13 || c = 11 || c = 12

/-- Strip Python whitespace from both ends of a byte list. -/
def stripPySpace (l : List Nat) : List Nat :=
  ((l.dropWhile (fun c => isPySpace c)).reverse.dropWhile (fun c => isPySpace c)).reverse

/-- Value of an ASCII hex digit (`0-9`, `a-f`, `A-F`), as accepted by
Python `int(_, 16)` and `binascii.unhexlify`. -/
def hexVal? (c : Nat) : Option Nat :=
  if 48 ≤ c ∧ c ≤ 57 then some (c - 48)
  else if 97 ≤ c ∧ c ≤ 102 then some (c - 87)
  else if 65 ≤ c ∧ c ≤ 70 then some (c - 55)
  else none

/-- Value of an ASCII decimal digit. -/
def decVal? (c : Nat) : Option Nat :=
  if 48 ≤ c ∧ c ≤ 57 then some (c - 48) else none

/-- Digit value in base 10 or 16 (the only bases the client uses). -/
def digitVal? (base c : Nat) : Option Nat :=
  if base = 16 then hexVal? c else decVal? c

/-- Digits of a Python integer literal after the first digit: further digits,
with single underscores allowed between digits (CPython grammar). -/
def pyDigitsCore (base : Nat) : Nat → List Nat → Option Nat
  | acc, [] => some acc
  | acc, c :: rest =>
    if c = 95 then
      match rest with
      | d :: rest2 =>
        match digitVal? base d with
        | some v => pyDigitsCore base (base * acc + v) rest2
        | none => none
      | [] => none
    else
      match digitVal? base c with
      | some v => pyDigitsCore base (base * acc + v) rest
      | none => none

/-- Strip a leading `0x` / `0X` prefix of a base-16 Python integer literal;
a single underscore directly after the prefix is consumed with it. -/
def stripHexPrefix (l : List Nat) : List Nat :=
  match l with
  | a :: x :: r =>
    if a = 48 ∧ (x = 120 ∨ x = 88) then
      match r with
      | u :: r2 => if u = 95 then r2 else r
      | [] => r
    else l
  | _ => l

/-- Unsigned part of Python `int(s, base)`: optional `0x` prefix in base 16,
then at least one digit, with single underscores allowed between digits. -/
def pyIntMag? (base : Nat) (l : List Nat) : Option Nat :=
  match (if base = 16 then stripHexPrefix l else l) with
  | [] => none
  | c :: rest =>
    match digitVal? base c with
    | some v => pyDigitsCore base v rest
    | none => none

/-- Python `int(s, base)` on a byte list (bases 10 and 16): optional
whitespace, optional sign, optional `0x`/`0X` prefix in base 16, then
digits with underscores between them.  `none` models the `ValueError` that
`int` raises otherwise. -/
def pyInt? (base : Nat) (l : List Nat) : Option Int :=
  match stripPySpace l with
  | [] => none
  | c :: rest =>
    if c = 43 then (pyIntMag? base rest).map (fun n => (n : Int))
    else if c = 45 then (pyIntMag? base rest).map (fun n => -(n : Int))
    else (pyIntMag? base (c :: rest)).map (fun n => (n : Int))

/-- Python `int(s, base)` on a string. -/
def pyIntStr? (base : Nat) (s : String) : Option Int :=
  pyInt? base (strCodes s)

/-- Two lowercase hex characters of a byte (Python `binascii.hexlify`). -/
def byteHex (b : Nat) : List Char :=
  [Nat.digitChar (b / 16 % 16), Nat.digitChar (b % 16)]

/-- Python `binascii.hexlify(data).decode('ascii')`. -/
def hexlify (data : List Nat) : String :=
  ⟨(data.map byteHex).flatten⟩

/-- Python `f"{n:x}"` for a nonnegative integer (lowercase hex). -/
def natHex (n : Nat) : String :=
  ⟨Nat.toDigits 16 n⟩

/-- Python `f"{n:x}"` for any integer. -/
def intHex (n : Int) : String :=
  if n < 0 then "-" ++ natHex n.natAbs else natHex n.toNat

/-- UTF-8 bytes of one character (Python `str.encode('utf-8')`). -/
def utf8EncodeChar (c : Char) : List Nat :=
  let n := c.toNat
  if n < 0x80 then [n]
  else if n < 0x800 then
    [0xC0 + n / 64, 0x80 + n % 64]
  else if n < 0x10000 then
    [0xE0 + n / 4096, 0x80 + n / 64 % 64, 0x80 + n % 64]
  else
    [0xF0 + n / 262144, 0x80 + n / 4096 % 64, 0x80 + n / 64 % 64, 0x80 + n % 64]

/-- UTF-8 bytes of a string (Python `str.encode('utf-8')`). -/
def utf8Encode (s : String) : List Nat :=
  (s.toList.map utf8EncodeChar).flatten

/-- SPXConnection._encode_path: ASCII-hex of the UTF-8 bytes of a path. -/
def encode_path (path : String) : String :=
  hexlify (utf8Encode path)

/-- Python `binascii.unhexlify` on character codes: pairs of hex digits, even
length required; `none` models the raised `binascii.Error`. -/
def hexPairs? : List Nat → Option (List Nat)
  | [] => some []
  | [_] => none
  | a :: b :: rest =>
    match hexVal? a, hexVal? b with
    | some x, some y => (hexPairs? rest).map (fun l => (16 * x + y) :: l)
    | _, _ => none

/-- UTF-8 continuation byte test. -/
def isUtf8Cont (c : Nat) : Bool :=
  128 ≤ c && c ≤ 191

/-- Strict UTF-8 decoding (Python `bytes.decode('utf-8')`): rejects overlong
forms, surrogates and out-of-range codepoints; `none` models the raised
`UnicodeDecodeError`. -/
def utf8Decode? : List Nat → Option (List Char)
  | [] => some []
  | b :: rest =>
    if b < 0x80 then
      (utf8Decode? rest).map (fun cs => Char.ofNat b :: cs)
    else if 0xC2 ≤ b ∧ b ≤ 0xDF then
      match rest with
      | c :: rest2 =>
        if isUtf8Cont c then
          (utf8Decode? rest2).map (fun cs => Char.ofNat ((b - 0xC0) * 64 + (c - 0x80)) :: cs)
        else none
      | [] => none
    else if 0xE0 ≤ b ∧ b ≤ 0xEF then
      match rest with
      | c :: d :: rest2 =>
        if (if b = 0xE0 then 0xA0 ≤ c ∧ c ≤ 0xBF
            else if b = 0xED then 0x80 ≤ c ∧ c ≤ 0x9F
            else isUtf8Cont c = true) ∧ isUtf8Cont d = true then
          (utf8Decode? rest2).map
            (fun cs => Char.ofNat ((b - 0xE0) * 4096 + (c - 0x80) * 64 + (d - 0x80)) :: cs)
        else none
      | _ => none
    else if 0xF0 ≤ b ∧ b ≤ 0xF4 then
      match rest with
      | c :: d :: e :: rest2 =>
        if (if b = 0xF0 then 0x90 ≤ c ∧ c ≤ 0xBF
            else if b = 0xF4 then 0x80 ≤ c ∧ c ≤ 0x8F
            else isUtf8Cont c = true) ∧ isUtf8Cont d = true ∧ isUtf8Cont e = true then
          (utf8Decode? rest2).map
            (fun cs => Char.ofNat ((b - 0xF0) * 262144 + (c - 0x80) * 4096
              + (d - 0x80) * 64 + (e - 0x80)) :: cs)
        else none
      | _ => none
    else none

/-- SPXConnection._decode_path: un-hex then strict UTF-8 decode; `none` models
the exception path. -/
def decode_path? (hexStr : String) : Option String :=
  (hexPairs? (strCodes hexStr)).bind (fun bs => (utf8Decode? bs).map (fun cs => ⟨cs⟩))

/-- Containment of `sub` as a contiguous run inside `hay` (used to state the
"errno preserved in the message" part of the spec). -/
def containsSeq [BEq α] : List α → List α → Bool
  | [], sub => sub.isEmpty
  | a :: t, sub => sub.isPrefixOf (a :: t) || containsSeq t sub

/-- SPXConnection._encode_binary_escaped: escape `}` `#` `$` `*` as `}`
followed by the byte XOR 0x20 (spx.py lines 554-563). -/
def encode_binary_escaped : List Nat → List Nat
  | [] => []
  | b :: rest =>
    if b = 125 ∨ b = 35 ∨ b = 36 ∨ b = 42 then
      125 :: (b ^^^ 32) :: encode_binary_escaped rest
    else b :: encode_binary_escaped rest

/-- SPXConnection._decode_binary_escaped: `}` consumes the next byte and XORs
it with 0x20; a trailing lone `}` stops the scan (spx.py lines 565-581). -/
def decode_binary_escaped : List Nat → List Nat
  | [] => []
  | b :: rest =>
    if b = 125 then
      match rest with
      | [] => []
      | c :: rest2 => (c ^^^ 32) :: decode_binary_escaped rest2
    else b :: decode_binary_escaped rest

/-- Result of one call of `SPXConnection._read_packet_from_stream` (spx.py
lines 427-535).  `timeoutNone` is a `return None` (timeout, incomplete frame,
or checksum mismatch after the NAK was written); `raisedExc` is an exception
propagating out of `int(checksum_hex.decode('ascii'), 16)`. -/
inductive ReadResult
  | timeoutNone
  | raisedExc
  | ack
  | nak
  | data (payload : List Nat)
deriving DecidableEq

/-- Loop of `_read_packet_from_stream` that skips noise bytes until an ACK
(`+` 43), NAK (`-` 45) or packet start (`$` 36) byte arrives. -/
def findStart : List Nat → Option (Nat × List Nat)
  | [] => none
  | b :: rest =>
    if b = 43 ∨ b = 45 ∨ b = 36 then some (b, rest) else findStart rest

/-- Loop of `_read_packet_from_stream` that accumulates payload bytes until
the `#` (35) delimiter; `none` when the stream ends first (timeout). -/
def collectPayload : List Nat → Option (List Nat × List Nat)
  | [] => none
  | b :: rest =>
    if b = 35 then some ([], rest)
    else (collectPayload rest).map (fun pr => (b :: pr.1, pr.2))

/-- Python `int(checksum_hex.decode('ascii'), 16)` for the two checksum
bytes: fails (exception) for non-ASCII bytes, otherwise follows `int(_, 16)`
on a two-character string. -/
def pyIntHex2? (a b : Nat) : Option Int :=
  if 128 ≤ a ∨ 128 ≤ b then none else pyInt? 16 [a, b]

/-- SPXConnection._read_packet_from_stream as a function of the pending input
bytes: returns the bytes the reader writes back to the transport (`[43]` for
ACK, `[45]` for NAK, nothing otherwise) and the parsed result. -/
def read_packet_from_stream (input : List Nat) : List Nat × ReadResult :=
  match findStart input with
  | none => ([], .timeoutNone)
  | some (b, rest) =>
    if b = 43 then ([], .ack)
    else if b = 45 then ([], .nak)
    else
      match collectPayload rest with
      | none => ([], .timeoutNone)
      | some (payload, rest2) =>
        match rest2 with
        | c1 :: c2 :: _ =>
          match pyIntHex2? c1 c2 with
          | none => ([], .raisedExc)
          | some expected =>
            if expected = ((payload.sum % 256 : Nat) : Int) then
              ([43], .data payload)
            else
              ([45], .timeoutNone)
        | _ => ([], .timeoutNone)

/-- SPXConnection._decode_o_packet on the payload bytes: drops the leading
`O` (79) and un-hexes the rest; any failure yields the empty (falsy) message.
The final `.decode('utf-8', errors='replace')` step maps these bytes to text
one-for-one in truthiness and is kept at the byte level here. -/
def decode_o_packet (packet : List Nat) : List Nat :=
  match packet with
  | 79 :: rest => (hexPairs? rest).getD []
  | _ => []

/-- What `_reader_thread_func` (spx.py lines 399-411) does with a parsed
payload: route it to the O-packet sink, drop it silently (O-packet whose
body does not decode, or decodes to the empty message), or enqueue it on the
response queue. -/
inductive ReaderAction
  | toSink (msg : List Nat)
  | dropped
  | enqueue (packet : List Nat)
deriving DecidableEq

/-- Classification step of `_reader_thread_func`: payloads longer than 2
characters starting with `O` (79) go to the sink when their body decodes to a
non-empty message; everything else is enqueued. -/
def reader_handle (packet : List Nat) : ReaderAction :=
  if 2 < packet.length ∧ packet.take 1 = [79] then
    let m := decode_o_packet packet
    if m = [] then .dropped else .toSink m
  else .enqueue packet

/-- Truth of "the frame was passed on" (enqueued or delivered to the sink). -/
def ReaderAction.delivered : ReaderAction → Bool
  | .toSink _ => true
  | .enqueue _ => true
  | .dropped => false

/-- Outcome of one `_read_ack_nak` call inside `_send_packet`: an ACK, a NAK,
or an `RSPIOError` with the given message (timeout on the queue, or an
unexpected non-ACK/NAK queue item). -/
inductive AckEvent
  | ack
  | nak
  | errEvent (msg : String)
deriving DecidableEq

deriving instance DecidableEq for Except

/-- Observable trace of one `_send_packet` call: how many times the framed
packet was written, how many times `_drain_input` ran, and the outcome
(`.error msg` models `raise RSPIOError(msg)`). -/
structure SendTrace where
  sends : Nat
  drains : Nat
  outcome : Except String Unit
deriving DecidableEq

/-- Retry loop of `SPXConnection._send_packet` (spx.py lines 601-623),
indexed by the number of loop iterations still available (the Python loop is
`for attempt in range(3)`, and `attempt < max_retries - 1` is exactly
"iterations remain").  On ACK it returns; on NAK it retries, and on the last
iteration raises `NAK received after retries`; on an `RSPIOError` from
`_read_ack_nak` it drains stale input and retries, re-raising the error on
the last iteration. -/
def send_packet_loop : Nat → List AckEvent → Nat → Nat → SendTrace
  | 0, _, sends, drains => ⟨sends, drains, .error "Failed to send packet after retries"⟩
  | remaining + 1, events, sends, drains =>
    match events with
    | [] =>
      if remaining = 0 then ⟨sends + 1, drains, .error "Timeout waiting for ACK/NAK"⟩
      else send_packet_loop remaining [] (sends + 1) (drains + 1)
    | e :: rest =>
      match e with
      | .ack => ⟨sends + 1, drains, .ok ()⟩
      | .nak =>
        if remaining = 0 then ⟨sends + 1, drains, .error "NAK received after retries"⟩
        else send_packet_loop remaining rest (sends + 1) drains
      | .errEvent msg =>
        if remaining = 0 then ⟨sends + 1, drains, .error msg⟩
        else send_packet_loop remaining rest (sends + 1) (drains + 1)

/-- SPXConnection._send_packet with `max_retries = 3`, as a function of the
successive ACK/NAK-wait outcomes. -/
def send_packet_model (events : List AckEvent) : SendTrace :=
  send_packet_loop 3 events 0 0

/-- Argument `response_timeout` that `cmd_exec` passes to `execute_command`
(spx.py line 1489): literally `None if follow_enabled else None`. -/
def cmd_exec_response_timeout (follow_enabled : Bool) : Option Nat :=
  if follow_enabled then none else none

/-- Timeout handed by `execute_command` to `_read_response` when it waits for
the OK/E response (spx.py line 1168): `response_timeout if response_timeout
is not None else 5.0`.  The outer `Option` is whether a response is awaited
at all (`wait_for_response`); the inner `Option` is `_read_response`'s
timeout argument, where `none` would mean "wait forever". -/
def execute_command_read_timeout (wait_for_response : Bool) (response_timeout : Option Nat) :
    Option (Option Nat) :=
  if wait_for_response then some (some (response_timeout.getD 5)) else none

/-- Response-wait behaviour of `cmd_exec` as a function of follow mode:
composition of the two call sites above. -/
def cmd_exec_read_timeout (follow_enabled : Bool) : Option (Option Nat) :=
  execute_command_read_timeout follow_enabled (cmd_exec_response_timeout follow_enabled)

/-- Python slice `l[:k]` including the negative-index case. -/
def pySliceUpto (l : List Nat) (k : Int) : List Nat :=
  if 0 ≤ k then l.take k.toNat else l.take (((l.length : Int) + k).toNat)

/-- Count actually requested by `_vfile_pread` (spx.py lines 764-766): the
caller's count clamped to `(max_packet_size - 1) // 2`. -/
def vfile_pread_count (max_packet_size : Nat) (count : Int) : Int :=
  let max_binary := Int.fdiv ((max_packet_size : Int) - 1) 2
  if count > max_binary then max_binary else count

/-- Data actually sent by `_vfile_pwrite` (spx.py lines 793-795): the buffer
truncated by the Python slice `data[:max_binary]` with
`max_binary = (max_packet_size - 25) // 2`. -/
def vfile_pwrite_data (max_packet_size : Nat) (data : List Nat) : List Nat :=
  let max_binary := Int.fdiv ((max_packet_size : Int) - 25) 2
  if (data.length : Int) > max_binary then pySliceUpto data max_binary else data

/-- Error values raised by the client, mirroring the `RSP*Error` exception
classes of spx.py plus a marker for Python `ValueError`-family exceptions
escaping from `int(...)` / `binascii` / `.decode(...)`. -/
inductive SpxError
  | notSupported (msg : String)
  | ioErr (msg : String)
  | notFound (msg : String)
  | permissionDenied (msg : String)
  | alreadyExists (msg : String)
  | invalidParam (msg : String)
  | valueError
deriving DecidableEq

/-- Kinds of the error taxonomy, for stating the errno-to-kind mapping. -/
inductive ErrKind
  | kNotSupported
  | kIoErr
  | kNotFound
  | kPermissionDenied
  | kAlreadyExists
  | kInvalidParam
  | kValueError
deriving DecidableEq

/-- Kind of an error value. -/
def SpxError.kind : SpxError → ErrKind
  | .notSupported _ => .kNotSupported
  | .ioErr _ => .kIoErr
  | .notFound _ => .kNotFound
  | .permissionDenied _ => .kPermissionDenied
  | .alreadyExists _ => .kAlreadyExists
  | .invalidParam _ => .kInvalidParam
  | .valueError => .kValueError

/-- Message carried by an error value. -/
def SpxError.msg : SpxError → String
  | .notSupported m => m
  | .ioErr m => m
  | .notFound m => m
  | .permissionDenied m => m
  | .alreadyExists m => m
  | .invalidParam m => m
  | .valueError => ""

/-- SPXConnection._parse_errno (spx.py lines 701-707): decimal errno after
`F-1,` or `E`; `0` otherwise.  `none` models the `ValueError` from `int`. -/
def parse_errno? (response : String) : Option Int :=
  if strStartsWith response "F-1," then pyIntStr? 10 (strDrop response 4)
  else if strStartsWith response "E" then pyIntStr? 10 (strDrop response 1)
  else some 0

/-- SPXConnection._raise_error (spx.py lines 709-722): errno-to-exception
mapping; the supplied message wins over the per-errno default (`message or
default` in Python). -/
def raise_error (e : Int) (message : String) : SpxError :=
  if e = 2 then .notFound (pyOr message "File or directory not found")
  else if e = 5 then .ioErr (pyOr message "I/O error")
  else if e = 13 then .permissionDenied (pyOr message "Permission denied")
  else if e = 17 then .alreadyExists (pyOr message "Already exists")
  else if e = 22 then .invalidParam (pyOr message "Invalid parameter")
  else .ioErr (pyOr message ("I/O error (errno: " ++ toString e ++ ")"))

/-- Combined `_parse_errno` + `_raise_error` step used by every error branch
of the vFile/vSpectranext wrappers. -/
def raiseFrom (response : String) (message : String) : SpxError :=
  match parse_errno? response with
  | some e => raise_error e message
  | none => .valueError

/-- Predicate `':' in port or port.isdigit()` (spx.py line 106) deciding that
an endpoint string is a TCP address (`:` is code 58; Python `str.isdigit` is
false on the empty string). -/
def isTcpEndpoint (s : String) : Bool :=
  (strCodes s).contains 58 || ((s != "") && (strCodes s).all (fun c => 48 ≤ c && c ≤ 57))

/-- Python truthiness of an optional string (`None` and `""` are falsy). -/
def pyTruthy : Option String → Option String
  | some s => if s = "" then none else some s
  | none => none

/-- Outcome of `find_spectranext_device()` as observed by
`SPXConnection.__init__`: a detected device path, no device, or an
exception during detection. -/
inductive DetectOutcome
  | found (path : String)
  | noDevice
  | raisedExc
deriving DecidableEq

/-- Endpoint selection of `SPXConnection.__init__` (spx.py lines 103-144) as
a function of the caller-supplied port, the `SPECTRANEXT_CLI` environment
variable, and the USB-discovery outcome.  Returns `(is_tcp, port)`. -/
def select_endpoint (port env : Option String) (detect : DetectOutcome) : Bool × String :=
  match pyTruthy port with
  | some p => (isTcpEndpoint p, p)
  | none =>
    match pyTruthy env with
    | some e => (isTcpEndpoint e, e)
    | none =>
      match detect with
      | .found p => if p = "" then (true, "localhost:1337") else (false, p)
      | .noDevice => (true, "localhost:1337")
      | .raisedExc => (true, "localhost:1337")

/-- Response handling of `_vfile_open` (spx.py lines 725-742): `F-1,<errno>`
raises via `_raise_error`, other non-`F` responses raise `RSPIOError`, and
`F<fd-hex>` parses the descriptor. -/
def vfile_open_result (path : String) (response : String) : Except SpxError Int :=
  if strStartsWith response "F-1," then
    .error (raiseFrom response ("Failed to open " ++ path))
  else if strStartsWith response "F" then
    match pyIntStr? 16 (strDrop response 1) with
    | some fd => .ok fd
    | none => .error .valueError
  else .error (.ioErr ("Unexpected response: " ++ response))

/-- Response handling of `_vfile_pwrite` (spx.py lines 803-812): `F<n-hex>`
is the accepted byte count. -/
def vfile_pwrite_result (response : String) : Except SpxError Int :=
  if strStartsWith response "F-1," then
    .error (raiseFrom response "Failed to write file")
  else if strStartsWith response "F" then
    match pyIntStr? 16 (strDrop response 1) with
    | some n => .ok n
    | none => .error .valueError
  else .error (.ioErr ("Unexpected response: " ++ response))

/-- Response handling of `_vfile_close` (spx.py lines 744-754): only `F0`
is a success. -/
def vfile_close_result (response : String) : Except SpxError Unit :=
  if strStartsWith response "F-1," then
    .error (raiseFrom response "Failed to close file")
  else if response = "F0" then .ok ()
  else .error (.ioErr ("Unexpected response: " ++ response))

/-- The `vFile:open` packet (spx.py line 730). -/
def vfile_open_packet (path : String) (flags mode : Nat) : String :=
  "vFile:open:0," ++ natHex flags ++ "," ++ natHex mode ++ "," ++ encode_path path

/-- Python `f.read(n)` from position `pos`: a negative `n` reads the whole
rest of the file. -/
def pyFileRead (content : List Nat) (pos : Nat) (n : Int) : List Nat :=
  if n < 0 then content.drop pos else (content.drop pos).take n.toNat

/-- Upload loop of `SPXConnection.put` (spx.py lines 1070-1086): while fewer
bytes are transferred than the file size, read a chunk of at most
`(max_packet_size - 25) // 2` bytes from the local file and `pwrite` it,
advancing the transferred count by the device-reported byte count.  One
device response is consumed per `pwrite`; an exhausted response list models
the response-wait timeout.  Returns the `pwrite` packets sent, the loop
outcome, and the unconsumed responses. -/
def put_loop (fd : Int) (content : List Nat) (mps : Nat) :
    Nat → Int → List String → List String × Except SpxError Unit × List String
  | pos, transferred, responses =>
    if transferred < (content.length : Int) then
      let chunk := pyFileRead content pos (Int.fdiv ((mps : Int) - 25) 2)
      if chunk = [] then ([], .ok (), responses)
      else
        let pkt := "vFile:pwrite:" ++ intHex fd ++ "," ++ hexlify (vfile_pwrite_data mps chunk)
        match responses with
        | [] => ([pkt], .error (.ioErr "Timeout waiting for response"), [])
        | r :: rest =>
          match vfile_pwrite_result r with
          | .error e => ([pkt], .error e, rest)
          | .ok n =>
            let res := put_loop fd content mps (pos + chunk.length) (transferred + n) rest
            (pkt :: res.1, res.2.1, res.2.2)
    else ([], .ok (), responses)

/-- SPXConnection.put (spx.py lines 1052-1088) as a function of the local
file content, remote path, negotiated packet size and the successive device
responses: open with flags 0x201 and mode 0, run the upload loop, and close
in a `finally` block (so the close packet is sent on the error paths of the
loop as well).  Returns the data packets sent and the outcome. -/
def put_model (content : List Nat) (remote : String) (mps : Nat) (responses : List String) :
    List String × Except SpxError Unit :=
  let openPkt := vfile_open_packet remote 0x201 0
  match responses with
  | [] => ([openPkt], .error (.ioErr "Timeout waiting for response"))
  | r :: rest =>
    match vfile_open_result remote r with
    | .error e => ([openPkt], .error e)
    | .ok fd =>
      let lr := put_loop fd content mps 0 0 rest
      let closePkt := "vFile:close:" ++ intHex fd
      let sent := openPkt :: lr.1 ++ [closePkt]
      match lr.2.2 with
      | [] => (sent, .error (.ioErr "Timeout waiting for response"))
      | c :: _ =>
        match vfile_close_result c with
        | .error e => (sent, .error e)
        | .ok () => (sent, lr.2.1)

/-- Response handling of `_vspectranext_opendir` (spx.py lines 874-885). -/
def opendir_result (path : String) (response : String) : Except SpxError Unit :=
  if strStartsWith response "E" then
    .error (raiseFrom response ("Failed to open directory " ++ path))
  else if response = "OK" then .ok ()
  else .error (.ioErr ("Unexpected response: " ++ response))

/-- Response handling of `_vspectranext_closedir` (spx.py lines 912-921). -/
def closedir_result (response : String) : Except SpxError Unit :=
  if strStartsWith response "E" then
    .error (raiseFrom response "Failed to close directory")
  else if response = "OK" then .ok ()
  else .error (.ioErr ("Unexpected response: " ++ response))

/-- Response handling of `_vspectranext_readdir` (spx.py lines 887-910): an
empty response ends the directory, `E<errno>` raises, and
`FOK,<hex-name>,<type>,<size-hex>` yields `(name, type, size)`. -/
def readdir_result (response : String) : Except SpxError (Option (String × String × Int)) :=
  if response = "" then .ok none
  else if strStartsWith response "E" then
    .error (raiseFrom response "Failed to read directory")
  else if !(strStartsWith response "FOK,") then
    .error (.ioErr ("Unexpected response: " ++ response))
  else
    match splitComma (strDrop response 4) with
    | [hexName, entryType, sizeHex] =>
      match decode_path? hexName, pyIntStr? 16 sizeHex with
      | some name, some size => .ok (some (name, entryType, size))
      | _, _ => .error .valueError
    | _ => .error (.ioErr ("Unexpected response format: " ++ response))

/-- Readdir loop of `SPXConnection.ls` (spx.py lines 976-982): one
`vSpectranext:readdir` per consumed response until an empty response or an
error.  Returns the collected `(type, name, size)` entries (note the ls
reordering of the readdir tuple), the loop outcome, the number of readdir
packets sent, and the unconsumed responses. -/
def ls_loop : List String →
    List (String × String × Int) × Except SpxError Unit × Nat × List String
  | [] => ([], .error (.ioErr "Timeout waiting for response"), 1, [])
  | r :: rest =>
    match readdir_result r with
    | .error e => ([], .error e, 1, rest)
    | .ok none => ([], .ok (), 1, rest)
    | .ok (some (name, ty, size)) =>
      let res := ls_loop rest
      ((ty, name, size) :: res.1, res.2.1, res.2.2.1 + 1, res.2.2.2)

/-- SPXConnection.ls (spx.py lines 964-986) as a function of the path and the
successive device responses: opendir, the readdir loop, then closedir in a
`finally` block (sent whether or not the loop raised; a closedir error
supersedes the loop error, as a Python exception raised in `finally` does).
Returns the packets sent and the outcome. -/
def ls_model (path : String) (responses : List String) :
    List String × Except SpxError (List (String × String × Int)) :=
  let openPkt := "vSpectranext:opendir:" ++ encode_path path
  match responses with
  | [] => ([openPkt], .error (.ioErr "Timeout waiting for response"))
  | r :: rest =>
    match opendir_result path r with
    | .error e => ([openPkt], .error e)
    | .ok () =>
      let lr := ls_loop rest
      let sent := openPkt :: List.replicate lr.2.2.1 "vSpectranext:readdir"
        ++ ["vSpectranext:closedir"]
      match lr.2.2.2 with
      | [] => (sent, .error (.ioErr "Timeout waiting for response"))
      | c :: _ =>
        match closedir_result c with
        | .error e => (sent, .error e)
        | .ok () => (sent, match lr.2.1 with | .ok () => .ok lr.1 | .error e => .error e)

/-- Helper: `containsSeq l []` always holds. -/
theorem containsSeq_nil [BEq α] (l : List α) : containsSeq l [] = true := by
  induction l with
  | nil => rfl
  | cons a t ih => simp [containsSeq, List.isPrefixOf, ih]

/-- Helper: a list contains any middle segment of itself. -/
theorem containsSeq_append_middle [BEq α] [LawfulBEq α] (pre sub post : List α) :
    containsSeq (pre ++ sub ++ post) sub = true := by
  induction pre with
  | nil =>
    cases sub with
    | nil => simpa using containsSeq_nil post
    | cons s t =>
      have hp : (s :: t).isPrefixOf ((s :: t) ++ post) = true := by
        rw [List.isPrefixOf_iff_prefix]
        exact List.prefix_append _ _
      simp only [List.nil_append]
      cases hcons : (s :: t) ++ post with
      | nil => simp at hcons
      | cons a u =>
        rw [containsSeq, ← hcons, hp, Bool.true_or]
  | cons a t ih =>
    simp only [List.cons_append, containsSeq, Bool.or_eq_true]
    right
    simpa [List.append_assoc] using ih

/-- Helper: character codes distribute over string append. -/
theorem strCodes_append (a b : String) : strCodes (a ++ b) = strCodes a ++ strCodes b := by
  simp [strCodes, String.data_append]

/-- C1 counterexample: for the one-byte string `#`, the decoder leaves it
unchanged and the encoder then escapes it, so `encode(decode(x)) ≠ x`. -/
theorem c1_counterexample :
    encode_binary_escaped (decode_binary_escaped [35]) = [125, 3] ∧
    ([125, 3] : List Nat) ≠ [35] := by
  decide

/-- C1 (amended): the binary-escape round trip holds in the other order:
decoding the encoder's output restores the original byte string,
`decode(encode(x)) = x`. -/
theorem c1_decode_encode_roundtrip (x : List Nat) :
    decode_binary_escaped (encode_binary_escaped x) = x := by
  induction x with
  | nil => rfl
  | cons b rest ih =>
    by_cases hb : b = 125 ∨ b = 35 ∨ b = 36 ∨ b = 42
    · simp [encode_binary_escaped, hb, decode_binary_escaped, ih, Nat.xor_cancel_right]
    · push_neg at hb
      obtain ⟨h1, h2, h3, h4⟩ := hb
      have he : encode_binary_escaped (b :: rest) = b :: encode_binary_escaped rest := by
        simp [encode_binary_escaped, h1, h2, h3, h4]
      rw [he, decode_binary_escaped.eq_def]
      simp [h1, ih]

/-- C10: the reader enqueues a payload exactly when it is not an O-packet
shape (length > 2 and first character `O`); it routes to the sink only for
O-packet shapes; and the two-character success payload `OK` is always
enqueued, never treated as a log chunk. -/
theorem c10_reader_classification :
    (∀ p : List Nat, reader_handle p = .enqueue p ↔ ¬(2 < p.length ∧ p.take 1 = [79])) ∧
    (∀ (p m : List Nat), reader_handle p = .toSink m → 2 < p.length ∧ p.take 1 = [79]) ∧
    reader_handle (strCodes "OK") = .enqueue (strCodes "OK") := by
  refine ⟨fun p => ?_, fun p m h => ?_, by decide⟩
  · by_cases hp : 2 < p.length ∧ p.take 1 = [79]
    · constructor
      · intro h
        exfalso
        simp only [reader_handle, if_pos hp] at h
        by_cases hm : decode_o_packet p = [] <;> simp [hm] at h
      · intro h; exact absurd hp h
    · simp [reader_handle, hp]
  · by_cases hp : 2 < p.length ∧ p.take 1 = [79]
    · exact hp
    · simp [reader_handle, hp] at h

/-- C10 witness: the concrete O-packet `O41` (length 3) is routed to the
sink, so it has the O-packet shape. -/
theorem c10_witness : 2 < [79, 52, 49].length ∧ [79, 52, 49].take 1 = [79] :=
  c10_reader_classification.2.1 [79, 52, 49] [65] (by decide)

/-- C4: with follow mode enabled, `cmd_exec` ends up waiting for the OK
response with the bounded default timeout of 5 seconds (`execute_command`
turns the `response_timeout=None` it receives into `5.0`), not with the
unbounded wait (`some none`) that the spec and the code comments describe. -/
theorem c4_exec_follow_timeout_is_bounded :
    cmd_exec_read_timeout true = some (some 5) ∧
    cmd_exec_read_timeout true ≠ some none := by
  decide

/-- Helper: the `_send_packet` retry loop transmits at most once per
available iteration. -/
theorem send_packet_loop_sends_le (remaining : Nat) :
    ∀ (events : List AckEvent) (s d : Nat),
      (send_packet_loop remaining events s d).sends ≤ s + remaining := by
  induction remaining with
  | zero => intro events s d; simp [send_packet_loop]
  | succ r ih =>
    intro events s d
    cases events with
    | nil =>
      by_cases hr : r = 0
      · simp [send_packet_loop, hr]
      · simp only [send_packet_loop, if_neg hr]
        exact le_trans (ih [] (s + 1) (d + 1)) (by omega)
    | cons e rest =>
      cases e with
      | ack => simp [send_packet_loop]
      | nak =>
        by_cases hr : r = 0
        · simp [send_packet_loop, hr]
        · simp only [send_packet_loop, if_neg hr]
          exact le_trans (ih rest (s + 1) d) (by omega)
      | errEvent msg =>
        by_cases hr : r = 0
        · simp [send_packet_loop, hr]
        · simp only [send_packet_loop, if_neg hr]
          exact le_trans (ih rest (s + 1) (d + 1)) (by omega)

/-- C3 counterexample: when the peer NAKs every transmission, the error is
raised after the third transmission (there is no fourth attempt), and its
message is `NAK received after retries`, not `NAK after retries`. -/
theorem c3_counterexample :
    send_packet_model [.nak, .nak, .nak] = ⟨3, 0, .error "NAK received after retries"⟩ ∧
    "NAK received after retries" ≠ "NAK after retries" := by
  constructor
  · rfl
  · decide

/-- C3 (amended): `_send_packet` makes at most three transmissions in total;
a NAK triggers a plain retry while a timeout or unexpected-response error
drains stale input before the retry; the third consecutive NAK raises
`RSPIOError("NAK received after retries")`; and a peer that NAKs twice then
ACKs sees exactly three transmissions followed by normal completion. -/
theorem c3_retry_behaviour :
    send_packet_model [.nak, .nak, .ack] = ⟨3, 0, .ok ()⟩ ∧
    (∀ rest : List AckEvent, send_packet_model (.nak :: .nak :: .nak :: rest) =
      ⟨3, 0, .error "NAK received after retries"⟩) ∧
    (∀ (msg : String) (rest : List AckEvent),
      send_packet_model (.errEvent msg :: .ack :: rest) = ⟨2, 1, .ok ()⟩) ∧
    (∀ events : List AckEvent, (send_packet_model events).sends ≤ 3) := by
  refine ⟨rfl, fun rest => rfl, fun msg rest => rfl, fun events => ?_⟩
  simpa using send_packet_loop_sends_le 3 events 0 0

/-- C5 counterexample: with a negotiated packet size of 24 the write limit
`(24 - 25) // 2` is `-1`, and the Python slice `data[:-1]` sends two of the
three bytes — more than the claimed limit allows. -/
theorem c5_counterexample :
    vfile_pwrite_data 24 [0, 0, 0] = [0, 0] ∧
    ¬(((vfile_pwrite_data 24 [0, 0, 0]).length : Int) ≤ Int.fdiv ((24 : Int) - 25) 2) := by
  decide

/-- C5 (amended): `pread` requests at most `(max_packet_size - 1) // 2`
bytes, clamping larger requests to exactly that limit, for every packet
size; `pwrite` sends at most `(max_packet_size - 25) // 2` bytes, truncating
larger buffers to exactly that limit, provided `max_packet_size ≥ 25` (for
smaller sizes the limit is negative and the Python slice keeps all but its
last `|limit|` bytes instead). -/
theorem c5_chunk_limits :
    (∀ (mps : Nat) (count : Int),
      vfile_pread_count mps count ≤ Int.fdiv ((mps : Int) - 1) 2 ∧
      (Int.fdiv ((mps : Int) - 1) 2 < count →
        vfile_pread_count mps count = Int.fdiv ((mps : Int) - 1) 2)) ∧
    (∀ (mps : Nat) (data : List Nat), 25 ≤ mps →
      ((vfile_pwrite_data mps data).length : Int) ≤ Int.fdiv ((mps : Int) - 25) 2 ∧
      (Int.fdiv ((mps : Int) - 25) 2 < (data.length : Int) →
        vfile_pwrite_data mps data = data.take (Int.fdiv ((mps : Int) - 25) 2).toNat)) := by
  constructor
  · intro mps count
    constructor
    · simp only [vfile_pread_count]
      split <;> omega
    · intro hlt
      simp only [vfile_pread_count]
      rw [if_pos hlt]
  · intro mps data h25
    have hm : 0 ≤ Int.fdiv ((mps : Int) - 25) 2 := by
      apply Int.fdiv_nonneg <;> omega
    constructor
    · simp only [vfile_pwrite_data]
      split
      · simp only [pySliceUpto, if_pos hm, List.length_take]
        have := Int.toNat_of_nonneg hm
        push_cast
        omega
      · omega
    · intro hlt
      simp only [vfile_pwrite_data]
      rw [if_pos hlt]
      simp [pySliceUpto, hm]

/-- C5 witness: at the concrete packet size 30 with a 4-byte buffer, the
write limit `(30 - 25) // 2 = 2` bounds the data sent. -/
theorem c5_witness :
    (25 : Nat) ≤ 30 ∧
    ((vfile_pwrite_data 30 [1, 2, 3, 4]).length : Int) ≤ Int.fdiv ((30 : Int) - 25) 2 :=
  ⟨by decide, (c5_chunk_limits.2 30 [1, 2, 3, 4] (by decide)).1⟩

/-- C7 counterexample: a discovered USB device path that happens to consist
only of digits is opened as a serial port (`is_tcp = false`), although the
claimed classification rule would make such a string a TCP endpoint. -/
theorem c7_counterexample :
    select_endpoint none none (.found "1234") = (false, "1234") ∧
    isTcpEndpoint "1234" = true := by
  decide

/-- C7 (amended): an explicit endpoint and the `SPECTRANEXT_CLI` value are
classified by the `:`-or-digits rule; a path found by USB discovery is
always used as a serial port without classification; and when discovery
finds nothing or fails, the connection falls back to TCP `localhost:1337`. -/
theorem c7_endpoint_selection :
    ∀ (port env : Option String) (detect : DetectOutcome),
      (∀ p, port = some p → p ≠ "" → select_endpoint port env detect = (isTcpEndpoint p, p)) ∧
      ((port = none ∨ port = some "") → ∀ e, env = some e → e ≠ "" →
        select_endpoint port env detect = (isTcpEndpoint e, e)) ∧
      ((port = none ∨ port = some "") → (env = none ∨ env = some "") →
        (∀ p, detect = .found p → p ≠ "" → select_endpoint port env detect = (false, p)) ∧
        ((detect = .noDevice ∨ detect = .raisedExc ∨ detect = .found "") →
          select_endpoint port env detect = (true, "localhost:1337"))) := by
  intro port env detect
  refine ⟨?_, ?_, ?_⟩
  · intro p hp hne
    subst hp
    simp [select_endpoint, pyTruthy, hne]
  · intro hport e henv hne
    subst henv
    rcases hport with h | h <;> subst h <;>
      simp [select_endpoint, pyTruthy, hne]
  · intro hport henv
    constructor
    · intro p hdet hne
      subst hdet
      rcases hport with h | h <;> rcases henv with h2 | h2 <;> subst h <;> subst h2 <;>
        simp [select_endpoint, pyTruthy, hne]
    · intro hdet
      rcases hport with h | h <;> rcases henv with h2 | h2 <;> subst h <;> subst h2 <;>
        rcases hdet with h3 | h3 | h3 <;> subst h3 <;>
          simp [select_endpoint, pyTruthy]

/-- C7 witness: a concrete explicit serial path is classified and used
unchanged. -/
theorem c7_witness :
    select_endpoint (some "/dev/ttyACM0") none .noDevice =
      (isTcpEndpoint "/dev/ttyACM0", "/dev/ttyACM0") :=
  (c7_endpoint_selection (some "/dev/ttyACM0") none .noDevice).1 "/dev/ttyACM0" rfl (by decide)

/-- C6 counterexample: for the unknown errno 99 arriving as `F-1,99` at the
`vFile:open` call site, the raised error is `Io` but its message is the call
site's `Failed to open /h.b`, which does not contain the numeric code 99. -/
theorem c6_counterexample :
    parse_errno? "F-1,99" = some 99 ∧
    raise_error 99 "Failed to open /h.b" = .ioErr "Failed to open /h.b" ∧
    containsSeq (strCodes "Failed to open /h.b") (strCodes "99") = false := by
  decide

/-- C6 (amended): the errno-to-kind mapping is 2 to NotFound, 5 to Io, 13 to
PermissionDenied, 17 to Exists, 22 to Invalid, anything else to Io; the
numeric code is preserved in the message only on the default-message path
(no call-site message), where the message is exactly
`I/O error (errno: N)` and contains the code. -/
theorem c6_errno_mapping :
    ∀ (e : Int) (m : String),
      ((raise_error e m).kind =
        if e = 2 then .kNotFound
        else if e = 5 then .kIoErr
        else if e = 13 then .kPermissionDenied
        else if e = 17 then .kAlreadyExists
        else if e = 22 then .kInvalidParam
        else .kIoErr) ∧
      (m = "" → e ≠ 2 → e ≠ 5 → e ≠ 13 → e ≠ 17 → e ≠ 22 →
        raise_error e m = .ioErr ("I/O error (errno: " ++ toString e ++ ")") ∧
        containsSeq (strCodes ("I/O error (errno: " ++ toString e ++ ")"))
          (strCodes (toString e)) = true) := by
  intro e m
  constructor
  · simp only [raise_error]
    split_ifs <;> rfl
  · intro hm h2 h5 h13 h17 h22
    subst hm
    constructor
    · simp [raise_error, h2, h5, h13, h17, h22, pyOr]
    · rw [strCodes_append, strCodes_append]
      exact containsSeq_append_middle _ _ _

/-- C6 witness: applying the mapping at the concrete unknown errno 99 with
no call-site message. -/
theorem c6_witness :
    raise_error 99 "" = .ioErr ("I/O error (errno: " ++ toString (99 : Int) ++ ")") ∧
    containsSeq (strCodes ("I/O error (errno: " ++ toString (99 : Int) ++ ")"))
      (strCodes (toString (99 : Int))) = true :=
  (c6_errno_mapping 99 "").2 rfl (by decide) (by decide) (by decide) (by decide) (by decide)


/-- Helper: a byte with a hex-digit value lies in one of the digit ranges. -/
theorem hexVal?_ranges {c v : Nat} (h : hexVal? c = some v) :
    (48 ≤ c ∧ c ≤ 57) ∨ (97 ≤ c ∧ c ≤ 102) ∨ (65 ≤ c ∧ c ≤ 70) := by
  unfold hexVal? at h
  split_ifs at h with h1 h2 h3
  · exact Or.inl h1
  · exact Or.inr (Or.inl h2)
  · exact Or.inr (Or.inr h3)

/-- Helper: no `0x` prefix is stripped from a two-digit string that does not
start with one. -/
theorem stripHexPrefix_pair {a b : Nat} (h : ¬(a = 48 ∧ (b = 120 ∨ b = 88))) :
    stripHexPrefix [a, b] = [a, b] := by
  rw [stripHexPrefix.eq_def]
  simp [h]

/-- Helper: `int(checksum, 16)` on two plain hex digits is their value. -/
theorem pyIntHex2?_hex {a b x y : Nat} (hx : hexVal? a = some x) (hy : hexVal? b = some y) :
    pyIntHex2? a b = some ((16 * x + y : Nat) : Int) := by
  have ra := hexVal?_ranges hx
  have rb := hexVal?_ranges hy
  have ha128 : ¬(128 ≤ a ∨ 128 ≤ b) := by omega
  have hsa : isPySpace a = false := by simp [isPySpace]; omega
  have hsb : isPySpace b = false := by simp [isPySpace]; omega
  have hstrip : stripPySpace [a, b] = [a, b] := by
    simp [stripPySpace, List.dropWhile, hsa, hsb]
  have ha43 : a ≠ 43 := by omega
  have ha45 : a ≠ 45 := by omega
  have hpre : ¬(a = 48 ∧ (b = 120 ∨ b = 88)) := by omega
  have hb95 : b ≠ 95 := by omega
  have hmag : pyIntMag? 16 [a, b] = some (16 * x + y) := by
    rw [pyIntMag?.eq_def, if_pos rfl, stripHexPrefix_pair hpre]
    simp [digitVal?, hx, hy, hb95, pyDigitsCore]
  rw [pyIntHex2?, if_neg ha128, pyInt?.eq_def, hstrip]
  simp [ha43, ha45, hmag]

/-- Helper: the noise-skipping loop returns only the bytes it looks for,
and they come from the input. -/
theorem findStart_eq_some {input : List Nat} {b : Nat} {rest : List Nat}
    (h : findStart input = some (b, rest)) :
    (b = 43 ∨ b = 45 ∨ b = 36) ∧ ∃ pre, input = pre ++ b :: rest := by
  induction input with
  | nil => simp [findStart] at h
  | cons a t ih =>
    by_cases ha : a = 43 ∨ a = 45 ∨ a = 36
    · rw [findStart, if_pos ha] at h
      simp only [Option.some.injEq, Prod.mk.injEq] at h
      obtain ⟨hb, ht⟩ := h
      subst hb; subst ht
      exact ⟨ha, [], rfl⟩
    · rw [findStart, if_neg ha] at h
      obtain ⟨hmem, pre, hp⟩ := ih h
      exact ⟨hmem, a :: pre, by simp [hp]⟩

/-- Helper: the payload-collection loop splits the input at the first `#`. -/
theorem collectPayload_eq_some {l p r : List Nat} (h : collectPayload l = some (p, r)) :
    l = p ++ 35 :: r ∧ 35 ∉ p := by
  induction l generalizing p r with
  | nil => simp [collectPayload] at h
  | cons a t ih =>
    by_cases ha : a = 35
    · subst ha
      rw [collectPayload, if_pos rfl] at h
      simp only [Option.some.injEq, Prod.mk.injEq] at h
      obtain ⟨hp, hr⟩ := h
      subst hp; subst hr
      simp
    · rw [collectPayload, if_neg ha] at h
      cases hc : collectPayload t with
      | none => rw [hc] at h; simp at h
      | some pr =>
        obtain ⟨p2, r2⟩ := pr
        rw [hc] at h
        simp only [Option.map_some', Option.some.injEq, Prod.mk.injEq] at h
        obtain ⟨hp, hr⟩ := h
        obtain ⟨hl, hnot⟩ := ih hc
        subst hr
        constructor
        · rw [← hp, hl]; simp
        · rw [← hp]
          intro hm
          rcases List.mem_cons.mp hm with h1 | h1
          · exact ha h1.symm
          · exact hnot h1

/-- Helper: collecting over a `#`-free payload finds exactly that payload. -/
theorem collectPayload_append {payload : List Nat} (h : 35 ∉ payload) (r : List Nat) :
    collectPayload (payload ++ 35 :: r) = some (payload, r) := by
  induction payload with
  | nil => simp [collectPayload]
  | cons a t ih =>
    have ha : a ≠ 35 := fun e => h (e ▸ List.mem_cons_self a t)
    have h' : 35 ∉ t := fun hm => h (List.mem_cons_of_mem _ hm)
    rw [List.cons_append, collectPayload, if_neg ha, ih h']
    rfl

/-- C2 counterexample: the frame `$OXX#ff` has a correct checksum, so the
reader ACKs it, but the payload is an O-packet shape whose body `XX` is not
valid hex: the decoded message is empty and the frame is neither enqueued
nor delivered to the sink. -/
theorem c2_counterexample :
    read_packet_from_stream [36, 79, 88, 88, 35, 102, 102] = ([43], .data [79, 88, 88]) ∧
    reader_handle [79, 88, 88] = .dropped ∧
    (reader_handle [79, 88, 88]).delivered = false := by
  decide

/-- C2 (amended): for a well-formed inbound frame, a matching checksum makes
the reader write `+` and return the payload (which the classification step
then enqueues whenever it is not an O-packet shape; O-packet shapes go to
the sink, or are silently discarded when their hex body does not decode);
a mismatching checksum makes it write `-` and return nothing.  Moreover any
payload the reader returns as data was ACKed and came from a frame whose
parsed checksum equals the payload sum modulo 256. -/
theorem c2_checksum_gating :
    (∀ (payload : List Nat) (c1 c2 : Nat) (tail : List Nat) (x y : Nat),
      35 ∉ payload → hexVal? c1 = some x → hexVal? c2 = some y →
      (16 * x + y = payload.sum % 256 →
        read_packet_from_stream (36 :: payload ++ 35 :: c1 :: c2 :: tail) =
          ([43], .data payload) ∧
        (¬(2 < payload.length ∧ payload.take 1 = [79]) →
          reader_handle payload = .enqueue payload)) ∧
      (16 * x + y ≠ payload.sum % 256 →
        read_packet_from_stream (36 :: payload ++ 35 :: c1 :: c2 :: tail) =
          ([45], .timeoutNone))) ∧
    (∀ (input w p : List Nat), read_packet_from_stream input = (w, .data p) →
      w = [43] ∧ ∃ (pre : List Nat) (c1 c2 : Nat) (tail : List Nat),
        input = pre ++ 36 :: (p ++ 35 :: c1 :: c2 :: tail) ∧ 35 ∉ p ∧
        pyIntHex2? c1 c2 = some ((p.sum % 256 : Nat) : Int)) := by
  constructor
  · intro payload c1 c2 tail x y hno hx hy
    have hfs : findStart (36 :: payload ++ 35 :: c1 :: c2 :: tail) =
        some (36, payload ++ 35 :: c1 :: c2 :: tail) := by
      simp [findStart]
    have hcp := collectPayload_append hno (c1 :: c2 :: tail)
    have hpi := pyIntHex2?_hex hx hy
    constructor
    · intro hsum
      refine ⟨?_, fun hsh => by simp [reader_handle, hsh]⟩
      rw [read_packet_from_stream]
      simp only [hfs]
      rw [if_neg (by decide : ¬(36 = 43)), if_neg (by decide : ¬(36 = 45))]
      simp only [hcp, hpi]
      rw [if_pos (by exact_mod_cast hsum)]
    · intro hsum
      rw [read_packet_from_stream]
      simp only [hfs]
      rw [if_neg (by decide : ¬(36 = 43)), if_neg (by decide : ¬(36 = 45))]
      simp only [hcp, hpi]
      rw [if_neg (by exact_mod_cast hsum)]
  · intro input w p h
    rw [read_packet_from_stream] at h
    split at h
    · exact absurd h (by simp)
    · rename_i b rest heqf
      split at h
      · exact absurd h (by simp)
      · split at h
        · exact absurd h (by simp)
        · rename_i hb43 hb45
          split at h
          · exact absurd h (by simp)
          · rename_i payload rest2 heqc
            split at h
            · rename_i c1 c2 tail
              split at h
              · exact absurd h (by simp)
              · rename_i expected heqp
                split at h
                · rename_i he
                  simp only [Prod.mk.injEq, ReadResult.data.injEq] at h
                  obtain ⟨hw, hp⟩ := h
                  subst hw
                  subst hp
                  obtain ⟨hmem, pre, hpre⟩ := findStart_eq_some heqf
                  have hb36 : b = 36 := by tauto
                  obtain ⟨hrest, hnot⟩ := collectPayload_eq_some heqc
                  refine ⟨rfl, pre, c1, c2, tail, ?_, hnot, ?_⟩
                  · rw [hpre, hb36, hrest]
                  · rw [heqp, he]
                · exact absurd h (by simp)
            · exact absurd h (by simp)

/-- C2 witness: the concrete frame `$a#61` (payload byte 97, checksum 0x61)
is ACKed, returned as data, and enqueued. -/
theorem c2_witness :
    read_packet_from_stream (36 :: [97] ++ 35 :: 54 :: 49 :: []) = ([43], .data [97]) ∧
    reader_handle [97] = .enqueue [97] := by
  have h := (c2_checksum_gating.1 [97] 54 49 [] 6 1 (by decide) (by decide) (by decide)).1
    (by decide)
  exact ⟨h.1, h.2 (by decide)⟩

/-- C8: uploading the 5-byte file `HELLO` to `/h.b` with
`max_packet_size = 1024` sends exactly `vFile:open:0,201,0,2f682e62`, then
`vFile:pwrite:5,48454c4c4f`, then `vFile:close:5`, in that order, and with
the device responses `F5`, `F5`, `F0` the call completes successfully. -/
theorem c8_put_hello :
    put_model [72, 69, 76, 76, 79] "/h.b" 1024 ["F5", "F5", "F0"] =
      (["vFile:open:0,201,0,2f682e62", "vFile:pwrite:5,48454c4c4f", "vFile:close:5"],
       .ok ()) := by
  decide

/-- C9: `ls` against the mock scenario sends opendir, three readdirs and one
closedir and returns `[("F","a.bas",42), ("D","dir",0)]`; and whenever the
opendir response is accepted the closedir packet is among the packets sent,
whatever the remaining responses are (the `finally` block runs on the error
paths of the readdir loop as well). -/
theorem c9_ls_flow :
    ls_model "/" ["OK", "FOK,612e626173,F,2A", "FOK,646972,D,0", "", "OK"] =
      (["vSpectranext:opendir:2f", "vSpectranext:readdir", "vSpectranext:readdir",
        "vSpectranext:readdir", "vSpectranext:closedir"],
       .ok [("F", "a.bas", 42), ("D", "dir", 0)]) ∧
    (∀ (path r : String) (rest : List String), opendir_result path r = .ok () →
      "vSpectranext:closedir" ∈ (ls_model path (r :: rest)).1) := by
  refine ⟨by decide, fun path r rest h => ?_⟩
  rw [ls_model]
  simp only [h]
  rcases hls : ls_loop rest with ⟨entries, o, n, rem⟩
  cases rem with
  | nil => simp
  | cons c rem2 =>
    cases hc : closedir_result c with
    | error e => simp [hc]
    | ok u => cases u; simp [hc]

/-- C9 witness: with the concrete accepted opendir response `OK` and no
further responses, the closedir packet is still sent. -/
theorem c9_witness : "vSpectranext:closedir" ∈ (ls_model "/" ["OK"]).1 :=
  c9_ls_flow.2 "/" "OK" [] (by decide)
